import Mathlib

/-!
Verification of the TikTok-Streak automation script
(src/tiktok_auto_forward.py) against its specification.

The script's effectful pieces (Selenium calls, logging, sleeping) are
modelled by oracles passed in as explicit arguments: a selector lookup
becomes a value describing whether the lookup found an element, whether
it was displayed, and whether acting on it raised; a workflow body that
may raise becomes an `Except` value.  The pure control flow (loops,
retry counters, summary bookkeeping, string handling) is translated
directly from the source.
-/

/-! ## Configuration constants (lines 32-47 of the source) -/

def MAX_RETRIES : Nat := 3

def CAPTCHA_CHECK_ATTEMPTS : Nat := 3

/-! ## String helpers modelling Python `str` operations on `List Char` -/

/-- Characters removed by Python `str.strip()` with no argument. -/
def pySpace (c : Char) : Bool :=
  c = ' ' || c = '\t' || c = '\n' || c = '\x0b' || c = '\x0c' || c = '\r'

/-- Python `line.strip()`: drop `pySpace` characters from both ends. -/
def stripPy (s : List Char) : List Char :=
  ((s.dropWhile pySpace).reverse.dropWhile pySpace).reverse

/-- Python `s.lstrip('@')`: drop every leading `'@'` character. -/
def lstripAt (s : List Char) : List Char :=
  s.dropWhile (fun c => c = '@')

/-- Python `line.startswith('#')` on the raw (unstripped) line. -/
def startsWithHash : List Char → Bool
  | [] => false
  | c :: _ => c = '#'

/-- Python `s.lower()` character by character. -/
def lowerChars (s : List Char) : List Char :=
  s.map Char.toLower

/-! ## `load_users` (lines 86-94)

`users = [line.strip().lstrip('@') for line in f
          if line.strip() and not line.startswith('#')]`

A file is modelled as its list of lines (line terminators already
removed; `strip()` would delete them anyway and `startswith('#')` only
inspects the first character). -/

def load_users : List (List Char) → List (List Char)
  | [] => []
  | line :: rest =>
    if !(stripPy line).isEmpty && !startsWithHash line then
      lstripAt (stripPy line) :: load_users rest
    else
      load_users rest

/-! ## `check_and_close_captcha` (lines 193-231)

Oracles: `bodyText` is the raw text of the `body` element (`none` when
reading it raised, which the outer `except` turns into `False`);
`closeResults` gives, for each of the four close-button selectors in
order, whether `find_element` raised, and otherwise whether the element
`is_displayed()` and whether `click()` completed without raising;
`escOk` tells whether the `ActionChains` ESCAPE send completed without
raising. -/

/-- Outcome of one close-selector probe: `err` when `find_element` (or
`is_displayed`) raised, otherwise the displayed flag and whether the
click completed without raising. -/
inductive SelOutcome
  | err
  | found (displayed : Bool) (clickOk : Bool)
deriving DecidableEq

/-- The fixed indicator set of line 194. -/
def captcha_indicators : List (List Char) :=
  [ "Drag the slider".toList
  , "Verify you are human".toList
  , "puzzle".toList
  , "verification".toList ]

/-- `any(indicator.lower() in page_text for indicator in captcha_indicators)`
where `page_text` is already lowercased. -/
def captchaDetected (pageTextLower : List Char) : Bool :=
  captcha_indicators.any (fun ind => decide (lowerChars ind <:+: pageTextLower))

/-- The close-selector loop of lines 210-219: skip a selector whose
lookup raised or whose element is not displayed or whose click raised,
return `true` at the first displayed element whose click completed. -/
def tryCloseSelectors : List SelOutcome → Bool
  | [] => false
  | SelOutcome.err :: rest => tryCloseSelectors rest
  | SelOutcome.found d c :: rest =>
    if d && c then true else tryCloseSelectors rest

/-- A close-selector probe that actually dismisses: element found,
displayed, and its click completed without raising. -/
def dismissClickCompleted : SelOutcome → Bool
  | SelOutcome.found true true => true
  | _ => false

def check_and_close_captcha (bodyText : Option (List Char))
    (closeResults : List SelOutcome) (escOk : Bool) : Bool :=
  match bodyText with
  | none => false
  | some t =>
    if captchaDetected (lowerChars t) then
      if tryCloseSelectors closeResults then true
      else if escOk then true
      else false
    else false

/-! ## `find_message_button` (lines 238-282)

The page state is modelled as, for each selector in the combined
priority order (seven XPath selectors then two CSS selectors), the
result of `wait.until(presence_of_element_located(...))`: `none` when
the wait timed out (the `except` continues to the next selector), or
`some (e, displayed)` where `e` identifies the element found and
`displayed` is its `is_displayed()` value. -/

def find_message_button : List (Option (Nat × Bool)) → Option Nat
  | [] => none
  | r :: rest =>
    match r with
    | some (e, true) => some e
    | _ => find_message_button rest

/-- A selector result that is a present and visible match. -/
def visibleMatch : Option (Nat × Bool) → Bool
  | some (_, true) => true
  | _ => false

/-! ## `click_message_button` (lines 285-311)

Each of the four click methods (normal click, scroll + click,
JavaScript click, ActionChains) is modelled as an `Except String Unit`:
`ok` when the method completed without raising, `error` when it raised
(the `except` swallows it and the loop continues).  The function
returns the boolean result together with the number of methods actually
executed. -/

def clickLoop : List (Except String Unit) → Bool × Nat
  | [] => (false, 0)
  | Except.ok _ :: _ => (true, 1)
  | Except.error _ :: rest =>
    ((clickLoop rest).1, (clickLoop rest).2 + 1)

def click_message_button (button : Option Unit)
    (methods : List (Except String Unit)) : Bool × Nat :=
  match button with
  | none => (false, 0)
  | some _ => clickLoop methods

/-- Whether a modelled click method completes without raising. -/
def isOkE : Except String Unit → Bool
  | Except.ok _ => true
  | Except.error _ => false

/-! ## `send_streak_to_user` (lines 318-398)

The whole body sits inside `try: ... except Exception: ... return
False`; every `return` statement in the body returns a `bool`.  The
body is therefore modelled as an `Except String Bool` oracle and the
function as the handler that turns a raised exception into `False`. -/

def send_streak_to_user (body : Except String Bool) : Bool :=
  match body with
  | Except.ok b => b
  | Except.error _ => false

/-! ## The batch runner inside `run_streak_bot` (lines 432-459) -/

/-- Result of the per-account retry loop (lines 436-447):
whether the account succeeded and how many attempts were made. -/
structure AttemptResult where
  succeeded : Bool
  attempts : Nat
deriving DecidableEq

/-- `for attempt in range(MAX_RETRIES): if send(...): break` —
`attempt` is the next attempt index, the second argument the number of
loop iterations left; `attempts` counts calls made since index 0. -/
def attemptLoop (send : Nat → Bool) : Nat → Nat → AttemptResult
  | attempt, 0 => { succeeded := false, attempts := attempt }
  | attempt, fuel + 1 =>
    if send attempt then { succeeded := true, attempts := attempt + 1 }
    else attemptLoop send (attempt + 1) fuel

/-- Aggregate state produced by the `for username in users` loop:
the two counters of lines 432-433, plus the per-account outcome,
whether the inter-account delay of lines 450-453 was performed after
that account, and the accounts processed in order. -/
structure BatchResult (α : Type) where
  success_count : Nat
  fail_count : Nat
  outcomes : List Bool
  delays : List Bool
  processed : List α

/-- The user loop of lines 435-453.  `send i a` is the result of the
`send_streak_to_user` call for the account at position `i` on attempt
`a`; `lastUser` is `users[-1]`, against which the delay guard
`if username != users[-1]` compares by value. -/
def runBatchFrom {α : Type} [DecidableEq α] (send : Nat → Nat → Bool)
    (lastUser : α) : Nat → List α → BatchResult α
  | _, [] => { success_count := 0, fail_count := 0, outcomes := [], delays := [], processed := [] }
  | i, u :: rest =>
    { success_count :=
        (if (attemptLoop (send i) 0 MAX_RETRIES).succeeded then 1 else 0)
          + (runBatchFrom send lastUser (i + 1) rest).success_count
    , fail_count :=
        (if (attemptLoop (send i) 0 MAX_RETRIES).succeeded then 0 else 1)
          + (runBatchFrom send lastUser (i + 1) rest).fail_count
    , outcomes :=
        (attemptLoop (send i) 0 MAX_RETRIES).succeeded
          :: (runBatchFrom send lastUser (i + 1) rest).outcomes
    , delays :=
        decide (u ≠ lastUser) :: (runBatchFrom send lastUser (i + 1) rest).delays
    , processed := u :: (runBatchFrom send lastUser (i + 1) rest).processed }

/-- The batch of lines 432-459: on a non-empty list, `users[-1]` is its
last element; on an empty list the loop body never runs (in the source
this case is already cut off by the guard of lines 418-420). -/
def runBatch {α : Type} [DecidableEq α] (users : List α)
    (send : Nat → Nat → Bool) : BatchResult α :=
  match users with
  | [] => { success_count := 0, fail_count := 0, outcomes := [], delays := [], processed := [] }
  | u :: rest => runBatchFrom send ((u :: rest).getLastD u) 0 (u :: rest)

/-! ## `run_streak_bot` (lines 405-473) -/

/-- Observable trace of one `run_streak_bot` call: whether
`setup_driver` ran (line 423), whether the empty-list error of line 419
was logged, the final summary `(success_count, fail_count)` of lines
455-460 (`none` when the run returned before the batch), and the
per-account outcomes. -/
structure RunTrace where
  browserLaunched : Bool
  emptyListErrorLogged : Bool
  summary : Option (Nat × Nat)
  outcomes : List Bool

/-- Lines 414-460 for a successfully loaded cookie file: the
`if not users` guard returns before `setup_driver`; otherwise the batch
runs and the summary is logged.  The function is total: the `return` at
line 420 is a normal return, so the scheduler that invoked the run
continues. -/
def run_streak_bot {α : Type} [DecidableEq α] (users : List α)
    (send : Nat → Nat → Bool) : RunTrace :=
  if users.isEmpty then
    { browserLaunched := false, emptyListErrorLogged := true
    , summary := none, outcomes := [] }
  else
    { browserLaunched := true, emptyListErrorLogged := false
    , summary := some ((runBatch users send).success_count, (runBatch users send).fail_count)
    , outcomes := (runBatch users send).outcomes }

/-! ## `start_daily_scheduler` (lines 480-577)

Naive datetimes are modelled as seconds since an epoch; a calendar day
is `SECONDS_PER_DAY` long, `datetime.combine(date, t)` is
`combine`, `now.time()` is `timeOfDay`, `now.date()` is `dateOf`, and
`timedelta(days=1)` adds `SECONDS_PER_DAY`. -/

def SECONDS_PER_DAY : Nat := 86400

/-- `SEND_TIME = "21:00"` as seconds after midnight. -/
def SEND_TIME_SECONDS : Nat := 21 * 3600

def combine (day tod : Nat) : Nat := day * SECONDS_PER_DAY + tod

def timeOfDay (t : Nat) : Nat := t % SECONDS_PER_DAY

def dateOf (t : Nat) : Nat := t / SECONDS_PER_DAY

/-- Next-run computation at scheduler start (lines 506-514). -/
def next_run_at_start (now target : Nat) : Nat :=
  let today_run := combine (dateOf now) target
  if timeOfDay now < target then today_run
  else today_run + SECONDS_PER_DAY

/-- Next-run recomputation inside the heartbeat branch (lines 545-550). -/
def next_run_heartbeat (now target : Nat) : Nat :=
  if timeOfDay now < target then combine (dateOf now) target
  else combine (dateOf now) target + SECONDS_PER_DAY

/-- The positional delay rule asserted by the specification for the
batch runner: a delay after position `i` exactly when `i` is not the
final position, for every value of the handles. -/
def positionalDelaysProp : Prop :=
  ∀ (users : List String) (send : Nat → Nat → Bool) (i : Nat),
    i < users.length →
      (runBatch users send).delays[i]? = some (decide (i ≠ users.length - 1))

/-! ## Helper lemmas about the batch runner -/

theorem attemptLoop_eval (send : Nat → Bool) :
    attemptLoop send 0 MAX_RETRIES =
      if send 0 then { succeeded := true, attempts := 1 }
      else if send 1 then { succeeded := true, attempts := 2 }
      else if send 2 then { succeeded := true, attempts := 3 }
      else { succeeded := false, attempts := 3 } := rfl

theorem runBatchFrom_counts {α : Type} [DecidableEq α]
    (send : Nat → Nat → Bool) (lastUser : α) :
    ∀ (l : List α) (i : Nat),
      (runBatchFrom send lastUser i l).success_count
        + (runBatchFrom send lastUser i l).fail_count = l.length
  | [], _ => rfl
  | u :: rest, i => by
    have ih := runBatchFrom_counts send lastUser rest (i + 1)
    by_cases hs : (attemptLoop (send i) 0 MAX_RETRIES).succeeded = true <;>
      simp [runBatchFrom, hs, List.length_cons] <;> omega

theorem runBatchFrom_outcomes_length {α : Type} [DecidableEq α]
    (send : Nat → Nat → Bool) (lastUser : α) :
    ∀ (l : List α) (i : Nat),
      (runBatchFrom send lastUser i l).outcomes.length = l.length
  | [], _ => rfl
  | u :: rest, i => by
    simp [runBatchFrom, runBatchFrom_outcomes_length send lastUser rest (i + 1)]

theorem runBatchFrom_processed {α : Type} [DecidableEq α]
    (send : Nat → Nat → Bool) (lastUser : α) :
    ∀ (l : List α) (i : Nat), (runBatchFrom send lastUser i l).processed = l
  | [], _ => rfl
  | u :: rest, i => by
    simp [runBatchFrom, runBatchFrom_processed send lastUser rest (i + 1)]

theorem runBatchFrom_delays {α : Type} [DecidableEq α]
    (send : Nat → Nat → Bool) (lastUser : α) :
    ∀ (l : List α) (i : Nat),
      (runBatchFrom send lastUser i l).delays
        = l.map (fun u => decide (u ≠ lastUser))
  | [], _ => rfl
  | u :: rest, i => by
    simp [runBatchFrom, runBatchFrom_delays send lastUser rest (i + 1)]

/-- C1: for every run of the batch runner, the run summary satisfies
`success_count + fail_count = users.length`, and the outcomes list has
exactly one entry per account, so each account contributes exactly one
of a success or a failure outcome. -/
theorem C1_summary_counts (users : List String) (send : Nat → Nat → Bool) :
    (runBatch users send).success_count + (runBatch users send).fail_count
        = users.length
    ∧ (runBatch users send).outcomes.length = users.length := by
  cases users with
  | nil => exact ⟨rfl, rfl⟩
  | cons u rest =>
    exact ⟨runBatchFrom_counts send ((u :: rest).getLastD u) (u :: rest) 0,
      runBatchFrom_outcomes_length send ((u :: rest).getLastD u) (u :: rest) 0⟩

/-- C2: when the send workflow fails on every attempt, the retry loop
makes exactly `MAX_RETRIES` attempts and records failure; when the
first success is on attempt index `k` (so the `(k+1)`-th attempt), the
loop makes exactly `k + 1` attempts and stops there. -/
theorem C2_retry_counts (send : Nat → Bool) :
    ((∀ a, a < MAX_RETRIES → send a = false) →
        attemptLoop send 0 MAX_RETRIES = { succeeded := false, attempts := MAX_RETRIES })
    ∧ ∀ k, k < MAX_RETRIES → send k = true → (∀ j, j < k → send j = false) →
        attemptLoop send 0 MAX_RETRIES = { succeeded := true, attempts := k + 1 } := by
  constructor
  · intro hall
    have h0 := hall 0 (by decide)
    have h1 := hall 1 (by decide)
    have h2 := hall 2 (by decide)
    rw [attemptLoop_eval, h0, h1, h2]
    simp [MAX_RETRIES]
  · intro k hk hs hbefore
    rw [attemptLoop_eval]
    have hk3 : k < 3 := hk
    interval_cases k
    · simp [hs]
    · have h0 := hbefore 0 (by decide)
      simp [h0, hs]
    · have h0 := hbefore 0 (by decide)
      have h1 := hbefore 1 (by decide)
      simp [h0, h1, hs]

/-- Witness for C2 at a concrete send oracle that fails on attempt 0
and succeeds on attempt 1: exactly two attempts are made. -/
theorem C2_retry_witness :
    attemptLoop (fun a => decide (a = 1)) 0 MAX_RETRIES
      = { succeeded := true, attempts := 2 } :=
  (C2_retry_counts (fun a => decide (a = 1))).2 1 (by decide) (by decide)
    (fun j hj => by interval_cases j; decide)

/-- C3 (counterexample): the positional delay rule fails on the code.
With users `["a", "b", "a"]` the guard `username != users[-1]` compares
handle values, so after the first account (position 0, not final) no
delay is performed because its handle equals the last handle. -/
theorem C3_counterexample : ¬ positionalDelaysProp := fun h =>
  absurd (h ["a", "b", "a"] (fun _ _ => false) 0 (by decide)) (by decide)

/-- C3 (amended): the inter-account delay is performed after an account
exactly when that account's handle differs by value from the handle in
the final position of the list; for lists in which the final handle
occurs only once this coincides with the positional rule. -/
theorem C3_value_based_delays (u : String) (rest : List String)
    (send : Nat → Nat → Bool) :
    (runBatch (u :: rest) send).delays
      = (u :: rest).map (fun x => decide (x ≠ (u :: rest).getLastD u)) :=
  runBatchFrom_delays send ((u :: rest).getLastD u) (u :: rest) 0

/-- C4: `load_users` keeps exactly the lines whose stripped form is
non-empty and whose raw form does not start with `'#'`, in order, each
stripped of surrounding whitespace and of its leading `'@'` markers; in
particular the four-line scenario from the specification yields exactly
`["user1", "user2"]`. -/
theorem C4_load_users :
    (∀ lines : List (List Char),
        load_users lines =
          (lines.filter (fun l => !(stripPy l).isEmpty && !startsWithHash l)).map
            (fun l => lstripAt (stripPy l)))
    ∧ load_users ["user1".toList, "#comment".toList, "".toList, "@user2".toList]
        = ["user1".toList, "user2".toList] := by
  constructor
  · intro lines
    induction lines with
    | nil => rfl
    | cons l rest ih =>
      cases h : (!(stripPy l).isEmpty && !startsWithHash l) <;>
        simp [load_users, List.filter_cons, h, ih]
  · rfl

/-- C5: an exception raised inside the send workflow is turned into a
`false` return by the workflow's own handler, and for every oracle of
per-attempt outcomes — including ones that raise on every attempt — the
batch runner still processes every account of the list in order, giving
each exactly one outcome. -/
theorem C5_failure_isolation (users : List String)
    (bodies : Nat → Nat → Except String Bool) :
    (runBatch users (fun i a => send_streak_to_user (bodies i a))).processed = users
    ∧ (runBatch users (fun i a => send_streak_to_user (bodies i a))).outcomes.length
        = users.length
    ∧ ∀ e, send_streak_to_user (Except.error e) = false := by
  refine ⟨?_, ?_, fun e => rfl⟩
  · cases users with
    | nil => rfl
    | cons u rest => exact runBatchFrom_processed _ _ (u :: rest) 0
  · cases users with
    | nil => rfl
    | cons u rest => exact runBatchFrom_outcomes_length _ _ (u :: rest) 0

/-- C6: with no button the executor returns false at once; with a
button it returns true exactly when some method completes without
raising, the number of methods executed is one more than the run of
leading failures (all of them when every method raises), and among the
executed methods at most one completes — so at most one method performs
the click, and no exception escapes (the result is a total boolean). -/
theorem C6_click_cascade (ms : List (Except String Unit)) :
    click_message_button none ms = (false, 0)
    ∧ (click_message_button (some ()) ms).1 = ms.any isOkE
    ∧ (click_message_button (some ()) ms).2 =
        (if ms.any isOkE then (ms.takeWhile (fun m => !isOkE m)).length + 1
         else ms.length)
    ∧ (ms.take (click_message_button (some ()) ms).2).countP isOkE ≤ 1 := by
  have main : ∀ l : List (Except String Unit),
      (clickLoop l).1 = l.any isOkE
      ∧ (clickLoop l).2 =
          (if l.any isOkE then (l.takeWhile (fun m => !isOkE m)).length + 1
           else l.length)
      ∧ (l.take (clickLoop l).2).countP isOkE ≤ 1 := by
    intro l
    induction l with
    | nil => simp [clickLoop]
    | cons m rest ih =>
      obtain ⟨ih1, ih2, ih3⟩ := ih
      cases m with
      | ok v =>
        refine ⟨by simp [clickLoop, isOkE], by simp [clickLoop, isOkE, List.takeWhile_cons], ?_⟩
        simp [clickLoop, isOkE, List.take_succ_cons, List.countP_cons]
      | error e =>
        refine ⟨by simp [clickLoop, isOkE, ih1], ?_, ?_⟩
        · rw [show (clickLoop (Except.error e :: rest)).2 = (clickLoop rest).2 + 1 from rfl, ih2]
          by_cases h : rest.any isOkE = true
          · simp [h, isOkE, List.takeWhile_cons]
          · simp [h, isOkE, List.takeWhile_cons]
        · rw [show (clickLoop (Except.error e :: rest)).2 = (clickLoop rest).2 + 1 from rfl]
          simpa [List.take_succ_cons, List.countP_cons, isOkE] using ih3
  exact ⟨rfl, (main ms).1, (main ms).2.1, (main ms).2.2⟩

/-- C7: the message-button locator returns the element of the first
selector (in the fixed priority order) whose result is a present and
visible match, whatever the earlier selectors returned, and it returns
`none` exactly when no selector's result is a present and visible
match — determinism is inherent since the locator is a function of the
page state. -/
theorem C7_locator_first_visible (results : List (Option (Nat × Bool))) :
    (∀ i e, (results.take i).all (fun r => !visibleMatch r) = true →
        results[i]? = some (some (e, true)) →
        find_message_button results = some e)
    ∧ (find_message_button results = none
        ↔ results.all (fun r => !visibleMatch r) = true) := by
  induction results with
  | nil =>
    refine ⟨fun i e _ hget => ?_, by simp [find_message_button]⟩
    simp at hget
  | cons r rest ih =>
    obtain ⟨ih1, ih2⟩ := ih
    rcases r with _ | ⟨e0, b⟩
    · constructor
      · intro i e htake hget
        cases i with
        | zero => simp at hget
        | succ i =>
          simp only [List.take_succ_cons, List.all_cons, visibleMatch, Bool.not_false,
            Bool.true_and] at htake
          exact ih1 i e htake (by simpa using hget)
      · simpa [find_message_button, visibleMatch] using ih2
    · cases b
      · constructor
        · intro i e htake hget
          cases i with
          | zero => simp at hget
          | succ i =>
            simp only [List.take_succ_cons, List.all_cons, visibleMatch, Bool.not_false,
              Bool.true_and] at htake
            exact ih1 i e htake (by simpa using hget)
        · simpa [find_message_button, visibleMatch] using ih2
      · constructor
        · intro i e htake hget
          cases i with
          | zero =>
            simp at hget
            simp [find_message_button, hget]
          | succ i =>
            simp [List.take_succ_cons, visibleMatch] at htake
        · simp [find_message_button, visibleMatch]

/-- Witness for C7 at a concrete page state: selector 0 finds a
present but invisible element, selector 1 times out, selectors 2 and 3
both have visible matches; the element of selector 2 is returned. -/
theorem C7_locator_witness :
    find_message_button [some (5, false), none, some (7, true), some (9, true)]
      = some 7 :=
  (C7_locator_first_visible [some (5, false), none, some (7, true), some (9, true)]).1
    2 7 (by decide) (by decide)

/-- The close-selector loop succeeds exactly when some selector finds a
displayed element whose click completes without raising. -/
theorem tryCloseSelectors_eq_any : ∀ l : List SelOutcome,
    tryCloseSelectors l = l.any dismissClickCompleted
  | [] => rfl
  | SelOutcome.err :: rest => by
    simp [tryCloseSelectors, dismissClickCompleted, tryCloseSelectors_eq_any rest]
  | SelOutcome.found d c :: rest => by
    cases d <;> cases c <;>
      simp [tryCloseSelectors, dismissClickCompleted, tryCloseSelectors_eq_any rest]

/-- C8 (counterexample): a page whose body text matches the indicator
`"puzzle"`, on which every close-selector lookup raises and the ESC
fallback also raises — a challenge is detected and dismissal is
attempted, yet the guard returns `false`, contradicting the claim that
it returns true exactly when a challenge was detected and a dismissal
action was attempted. -/
theorem C8_counterexample :
    check_and_close_captcha (some ("puzzle".toList))
        [SelOutcome.err, SelOutcome.err, SelOutcome.err, SelOutcome.err] false
      = false
    ∧ captchaDetected (lowerChars ("puzzle".toList)) = true :=
  ⟨by decide, by decide⟩

/-- C8 (amended): the captcha guard returns true exactly when a
challenge indicator matches the page text (case-insensitively) and some
dismissal action completed without raising — either a displayed close
control whose click did not raise, or the ESC fallback — independent of
whether the challenge was actually dismissed; in particular it returns
false whenever no indicator matches. -/
theorem C8_captcha_result (bodyText : Option (List Char))
    (closeResults : List SelOutcome) (escOk : Bool) :
    check_and_close_captcha bodyText closeResults escOk = true ↔
      ∃ t, bodyText = some t ∧ captchaDetected (lowerChars t) = true ∧
        (closeResults.any dismissClickCompleted = true ∨ escOk = true) := by
  cases bodyText with
  | none => simp [check_and_close_captcha]
  | some t =>
    simp only [check_and_close_captcha, tryCloseSelectors_eq_any, Option.some.injEq]
    by_cases hd : captchaDetected (lowerChars t) = true
    · by_cases hc : closeResults.any dismissClickCompleted = true
      · simp [hd, hc]
      · by_cases he : escOk = true
        · simp [hd, hc, he]
        · simp [hd, hc, he]
    · simp [hd]

/-- C9: the next trigger instant is today's date combined with the
configured time-of-day when the current time-of-day is strictly before
the configured time, and tomorrow's date combined with it otherwise;
the heartbeat recomputation applies the identical rule. -/
theorem C9_next_trigger (now target : Nat) :
    (timeOfDay now < target →
        next_run_at_start now target = combine (dateOf now) target)
    ∧ (¬ timeOfDay now < target →
        next_run_at_start now target = combine (dateOf now + 1) target)
    ∧ next_run_heartbeat now target = next_run_at_start now target := by
  refine ⟨fun h => ?_, fun h => ?_, rfl⟩
  · simp [next_run_at_start, h]
  · simp only [next_run_at_start, combine, SECONDS_PER_DAY, if_neg h]
    omega

/-- Witness for C9 at one hour past midnight with the configured
21:00 send time: the next run is scheduled for today. -/
theorem C9_scheduler_witness :
    (timeOfDay 3600 < SEND_TIME_SECONDS
      ∧ next_run_at_start 3600 SEND_TIME_SECONDS = combine 0 SEND_TIME_SECONDS)
    ∧ next_run_heartbeat 3600 SEND_TIME_SECONDS
        = next_run_at_start 3600 SEND_TIME_SECONDS :=
  ⟨⟨by decide, (C9_next_trigger 3600 SEND_TIME_SECONDS).1 (by decide)⟩,
    (C9_next_trigger 3600 SEND_TIME_SECONDS).2.2⟩

/-- C10: on an empty loaded account list the run logs the error and
returns before the browser is launched — no session, no outcomes, no
summary — and, being a normal return of a total function, it leaves
the enclosing scheduler loop to continue. -/
theorem C10_empty_list (send : Nat → Nat → Bool) :
    (run_streak_bot ([] : List String) send).browserLaunched = false
    ∧ (run_streak_bot ([] : List String) send).emptyListErrorLogged = true
    ∧ (run_streak_bot ([] : List String) send).summary = none
    ∧ (run_streak_bot ([] : List String) send).outcomes = [] :=
  ⟨rfl, rfl, rfl, rfl⟩
